import Mathlib

/-!
go-todo: the request handlers of `main.go`.

A shallow embedding of the four todo handlers (`fetchTodo`, `createTodo`,
`updateTodo`, `deleteTodo`) and of the record/DTO mapping they use.

What lies outside `main.go` is represented as follows.

* The database (`db *gorm.DB`, table `todo_models`) is a value `DB`: the rows that
  `db.Find` can see, in insertion order, and the log of the statements issued so far.
  The audit columns of `gorm.Model` (timestamps, soft-delete marker) are written by
  no handler (`deleteTodo` issues a raw `DELETE`), so they are not part of a row.
* Whether the database executes a statement or fails, and which identifier
  `gen_random_uuid()` yields for an insert, is chosen by the outside world: every
  handler takes an `Env` with that choice. A failed statement changes no row.
* The column `id` has the Postgres type uuid (`gorm:"type:uuid"`, line 34). The
  `WHERE id = ?` of the raw UPDATE and DELETE is bound to the trimmed path parameter,
  a string, which the database reads as a uuid (`uuid_in`): upper-case digits, the
  form without hyphens and the form in braces spell the same sixteen bytes as the
  canonical text. A row matches when its sixteen bytes are the ones read; a text
  that spells no uuid makes the statement fail.
* `json.NewDecoder(r.Body).Decode(&t)` is represented by its outcome, a field of
  `Request`; an `error` value is represented by the JSON that `encoding/json`
  writes for it.
* A `Response` records the arguments of the `render.JSON` call that ends a handler.
-/

set_option autoImplicit false

namespace GoTodo

/-! ## Library values -/

namespace http

/-- Status 200. -/
def StatusOK : Nat := 200

/-- Status 201. -/
def StatusCreated : Nat := 201

/-- Status 102, an informational (1xx) status. -/
def StatusProcessing : Nat := 102

/-- Status 400. -/
def StatusBadRequest : Nat := 400

end http

namespace unicode

/-- White space as Go's `unicode.IsSpace` defines it. -/
def IsSpace (c : Char) : Bool :=
  let n := c.toNat
  n == 0x09 || n == 0x0A || n == 0x0B || n == 0x0C || n == 0x0D || n == 0x20 ||
  n == 0x85 || n == 0xA0 || n == 0x1680 || (0x2000 ≤ n && n ≤ 0x200A) ||
  n == 0x2028 || n == 0x2029 || n == 0x202F || n == 0x205F || n == 0x3000

end unicode

namespace strings

/-- Go's `strings.TrimSpace`: the string without its leading and trailing white space. -/
def TrimSpace (s : String) : String :=
  ⟨((s.data.dropWhile unicode.IsSpace).reverse.dropWhile unicode.IsSpace).reverse⟩

end strings

/-- A JSON document, as `encoding/json` writes one. -/
inductive JSON where
  | null
  | bool (b : Bool)
  | num (n : Int)
  | str (s : String)
  | arr (items : List JSON)
  | obj (members : List (String × JSON))

/-- Whether the document is an object with a member of the given name. -/
def JSON.hasMember (j : JSON) (name : String) : Bool :=
  match j with
  | .obj members => members.any (fun p => p.1 == name)
  | _ => false

/-- A Go `error` value, represented by the JSON document `encoding/json` writes for it
(the exported fields of its concrete type). -/
structure GoError where
  json : JSON

/-- The error `io.EOF`, which `Decode` returns on an empty request body. It is an
`*errors.errorString`, a struct without exported fields, so its JSON form is the
empty object. -/
def ioEOF : GoError := ⟨JSON.obj []⟩

/-- A `uuid.UUID`: sixteen bytes, held as the number they spell in big-endian order. -/
structure UUID where
  val : Nat
  deriving DecidableEq, Repr

/-- The zero value of `uuid.UUID`. -/
def UUID.Nil : UUID := ⟨0⟩

/-- The lower-case hexadecimal digit of `n % 16`. -/
def hexDigit (n : Nat) : Char :=
  "0123456789abcdef".data.getD (n % 16) '0'

/-- Byte `i` (0 is the first) of the sixteen bytes. -/
def UUID.byte (u : UUID) (i : Nat) : Nat :=
  (u.val % 2 ^ 128) / 256 ^ (15 - i) % 256

/-- The hexadecimal digits of the `n` bytes from byte `i` on. -/
def UUID.hex (u : UUID) (i n : Nat) : List Char :=
  (List.range n).foldr (fun k acc => hexDigit (u.byte (i + k) / 16) :: hexDigit (u.byte (i + k)) :: acc) []

/-- The sixteen bytes, first to last. -/
def UUID.bytes (u : UUID) : List Nat :=
  (List.range 16).map u.byte

/-- The method `String()` of `uuid.UUID`: the canonical form
xxxxxxxx-xxxx-xxxx-xxxx-xxxxxxxxxxxx. -/
def UUID.String (u : UUID) : String :=
  ⟨u.hex 0 4 ++ '-' :: u.hex 4 2 ++ '-' :: u.hex 6 2 ++ '-' :: u.hex 8 2 ++ '-' :: u.hex 10 6⟩

/-- The value of a hexadecimal digit, lower or upper case; `none` for any other
character. -/
def hexVal (c : Char) : Option Nat :=
  let n := c.toNat
  if 48 ≤ n ∧ n ≤ 57 then some (n - 48)
  else if 97 ≤ n ∧ n ≤ 102 then some (n - 87)
  else if 65 ≤ n ∧ n ≤ 70 then some (n - 55)
  else none

/-- The loop of Postgres's uuid reader over the byte positions `is`: each byte is two
hexadecimal digits, and a hyphen that follows a byte at an odd position before the
last is skipped. Returns the bytes read and the characters left. -/
def readBytes : List Nat → List Char → Option (List Nat × List Char)
  | [], cs => some ([], cs)
  | i :: is, c1 :: c2 :: cs =>
    match hexVal c1, hexVal c2 with
    | some h, some l =>
      let rest := if i % 2 = 1 ∧ i < 15 ∧ cs.head? = some '-' then cs.tail else cs
      match readBytes is rest with
      | some (bs, tl) => some ((h * 16 + l) :: bs, tl)
      | none => none
    | _, _ => none
  | _ :: _, _ => none

/-- How Postgres reads a text as a value of type uuid (`uuid_in`): an optional opening
brace, sixteen bytes as `readBytes` reads them, the closing brace when there was an
opening one, and nothing after. The sixteen bytes, or `none` when the text spells no
uuid. -/
def uuid_in (s : String) : Option (List Nat) :=
  if s.data.head? = some '{' then
    match readBytes (List.range 16) s.data.tail with
    | some (bs, tl) => if tl = ['}'] then some bs else none
    | none => none
  else
    match readBytes (List.range 16) s.data with
    | some (bs, tl) => if tl = [] then some bs else none
    | none => none

/-- The error of the database for a text that spells no uuid (SQLSTATE 22P02); of its
JSON form only the members Severity, Code and Message are kept. -/
def pgInvalidUUID : GoError :=
  ⟨JSON.obj [("Severity", .str "ERROR"), ("Code", .str "22P02"),
    ("Message", .str "invalid input syntax for type uuid")]⟩

/-! ## Data model (`main.go`, lines 30-44) -/

/-- The storage record `TodoModel`, without the audit columns of `gorm.Model`. -/
structure TodoModel where
  ID : UUID
  Title : String
  Completed : Bool
  deriving DecidableEq, Repr

/-- The wire record `todo`. -/
structure todo where
  ID : String
  Title : String
  Completed : Bool
  deriving DecidableEq, Repr

/-- The record `createTodo` builds from a decoded wire todo (lines 153-156); the
identifier is left at its zero value for the database to assign. -/
def ToRecord (t : todo) : TodoModel :=
  { ID := UUID.Nil, Title := t.Title, Completed := false }

/-- The wire todo `fetchTodo` builds from a stored record (lines 123-127). -/
def ToDTO (t : TodoModel) : todo :=
  { ID := t.ID.String, Title := t.Title, Completed := t.Completed }

/-! ## Responses -/

/-- A value stored under a key of a `renderer.M`. -/
inductive Value where
  | str (s : String)
  | err (e : GoError)
  | todos (l : List todo)

/-- The value handed to `render.JSON`: a `renderer.M` (keys with their values, in the
order the source lists them), or an `error` value handed over as it is. -/
inductive Payload where
  | M (fields : List (String × Value))
  | err (e : GoError)

/-- The JSON document for a wire todo, following its `json` tags. -/
def todo.encode (t : todo) : JSON :=
  .obj [("id", .str t.ID), ("title", .str t.Title), ("completed", .bool t.Completed)]

/-- The JSON document for a value of a `renderer.M`. -/
def Value.encode : Value → JSON
  | .str s => .str s
  | .err e => e.json
  | .todos l => .arr (l.map todo.encode)

/-- The JSON document written as the response body. -/
def Payload.encode : Payload → JSON
  | .M fields => .obj (fields.map (fun p => (p.1, p.2.encode)))
  | .err e => e.json

/-- What a handler answers: the status and the value of its `render.JSON` call. -/
structure Response where
  status : Nat
  body : Payload

/-- The call `render.JSON(w, status, v)`. -/
def render.JSON (status : Nat) (v : Payload) : Response :=
  { status := status, body := v }

/-! ## The database -/

/-- A statement sent to the database. -/
inductive Stmt where
  | find
  | create (m : TodoModel)
  | update (title : String) (completed : Bool) (id : String)
  | delete (id : String)
  deriving DecidableEq, Repr

/-- The table `todo_models` and the statements issued so far. -/
structure DB where
  rows : List TodoModel
  log : List Stmt
  deriving DecidableEq, Repr

/-- The database before any request: no row, no statement. -/
def DB.empty : DB := { rows := [], log := [] }

/-- The outside world's part in one request: the error with which the database fails
the statement (`none` when it executes it) and the identifier `gen_random_uuid()`
yields for an insert. -/
structure Env where
  fault : Option GoError
  newID : UUID

/-- The call `db.Find(&todos)`: all rows. -/
def DB.Find (env : Env) (db : DB) : Except GoError (List TodoModel) × DB :=
  let db1 : DB := { rows := db.rows, log := db.log ++ [Stmt.find] }
  match env.fault with
  | some e => (.error e, db1)
  | none => (.ok db.rows, db1)

/-- The call `db.Create(&todoM)`: inserts the record; a zero identifier is replaced by
the column default `gen_random_uuid()` and read back into the record. -/
def DB.Create (env : Env) (m : TodoModel) (db : DB) : Except GoError TodoModel × DB :=
  let log1 := db.log ++ [Stmt.create m]
  match env.fault with
  | some e => (.error e, { rows := db.rows, log := log1 })
  | none =>
    let m1 : TodoModel := if m.ID = UUID.Nil then { ID := env.newID, Title := m.Title, Completed := m.Completed } else m
    (.ok m1, { rows := db.rows ++ [m1], log := log1 })

/-- The call `db.Exec("UPDATE todo_models SET title = ?, completed = ? WHERE id = ?", …)`.
The database reads the text bound to `id = ?` as a uuid and fails the statement when
it spells none; the rows with those sixteen bytes get the title and the flag. -/
def DB.ExecUpdate (env : Env) (title : String) (completed : Bool) (id : String) (db : DB) :
    Option GoError × DB :=
  let log1 := db.log ++ [Stmt.update title completed id]
  match env.fault with
  | some e => (some e, { rows := db.rows, log := log1 })
  | none =>
    match uuid_in id with
    | none => (some pgInvalidUUID, { rows := db.rows, log := log1 })
    | some bs =>
      (none, { rows := db.rows.map (fun m =>
                 if m.ID.bytes = bs then { ID := m.ID, Title := title, Completed := completed }
                 else m),
               log := log1 })

/-- The call `db.Exec("DELETE FROM todo_models Where id = ?", id)`.
The database reads the text bound to `id = ?` as a uuid and fails the statement when
it spells none; the rows with those sixteen bytes are removed. -/
def DB.ExecDelete (env : Env) (id : String) (db : DB) : Option GoError × DB :=
  let log1 := db.log ++ [Stmt.delete id]
  match env.fault with
  | some e => (some e, { rows := db.rows, log := log1 })
  | none =>
    match uuid_in id with
    | none => (some pgInvalidUUID, { rows := db.rows, log := log1 })
    | some bs =>
      (none, { rows := db.rows.filter (fun m => decide (m.ID.bytes ≠ bs)), log := log1 })

/-! ## Requests and handlers (`main.go`, lines 111-229) -/

/-- What a handler reads from the request: the value of `chi.URLParam(r, "id")` and
the outcome of `json.NewDecoder(r.Body).Decode(&t)`. -/
structure Request where
  id : String
  decode : Except GoError todo

/-- The handler `fetchTodo` (lines 111-134). -/
def fetchTodo (env : Env) (db : DB) : Response × DB :=
  match DB.Find env db with
  | (.error e, db1) =>
    (render.JSON http.StatusProcessing
      (.M [("message", .str "Failed to fetch todo"), ("error", .err e)]), db1)
  | (.ok todos, db1) =>
    let todoList := todos.foldl (fun acc t => acc ++ [ToDTO t]) []
    (render.JSON http.StatusOK (.M [("data", .todos todoList)]), db1)

/-- The handler `createTodo` (lines 136-171). -/
def createTodo (env : Env) (r : Request) (db : DB) : Response × DB :=
  match r.decode with
  | .error err => (render.JSON http.StatusProcessing (.err err), db)
  | .ok t =>
    if t.Title = "" then
      (render.JSON http.StatusBadRequest (.M [("message", .str "Title is required")]), db)
    else
      match DB.Create env (ToRecord t) db with
      | (.error e, db1) =>
        (render.JSON http.StatusProcessing
          (.M [("message", .str "Failed to create todo"), ("data", .err e)]), db1)
      | (.ok todoM, db1) =>
        (render.JSON http.StatusCreated
          (.M [("message", .str "todo created successfully"), ("todo_id", .str todoM.ID.String)]), db1)

/-- The handler `updateTodo` (lines 173-207). -/
def updateTodo (env : Env) (r : Request) (db : DB) : Response × DB :=
  let id := strings.TrimSpace r.id
  if id = "" then
    (render.JSON http.StatusBadRequest (.M [("message", .str "id is not be empty")]), db)
  else
    match r.decode with
    | .error err => (render.JSON http.StatusProcessing (.err err), db)
    | .ok t =>
      if t.Title = "" then
        (render.JSON http.StatusProcessing (.M [("message", .str "Title is empty ")]), db)
      else
        match DB.ExecUpdate env t.Title t.Completed id db with
        | (some e, db1) =>
          (render.JSON http.StatusProcessing
            (.M [("message", .str "Failed to update todo"), ("error", .err e)]), db1)
        | (none, db1) =>
          (render.JSON http.StatusOK (.M [("message", .str "updated the todo")]), db1)

/-- The handler `deleteTodo` (lines 209-229). -/
def deleteTodo (env : Env) (r : Request) (db : DB) : Response × DB :=
  let id := strings.TrimSpace r.id
  if id = "" then
    (render.JSON http.StatusBadRequest (.M [("message", .str "id is invalid")]), db)
  else
    match DB.ExecDelete env id db with
    | (some e, db1) =>
      (render.JSON http.StatusProcessing
        (.M [("message", .str "Failed to delete todo"), ("error", .err e)]), db1)
    | (none, db1) =>
      (render.JSON http.StatusOK (.M [("message", .str "Todo delete successfully ")]), db1)

/-- A run of create requests, each with its own `Env`, one after the other: the
responses in order and the database after the last. -/
def createAll : List (Env × Request) → DB → List Response × DB
  | [], db => ([], db)
  | (env, r) :: rest, db =>
    let step := createTodo env r db
    let tail := createAll rest step.2
    (step.1 :: tail.1, tail.2)

/-! ## Auxiliary lemmas -/

theorem foldl_append_ToDTO (todos : List TodoModel) (init : List todo) :
    todos.foldl (fun acc t => acc ++ [ToDTO t]) init = init ++ todos.map ToDTO := by
  induction todos generalizing init with
  | nil => simp
  | cons t rest ih => simp [ih]

theorem TrimSpace_empty : strings.TrimSpace "" = "" := by decide

theorem fetchTodo_ok (env : Env) (db : DB) (hf : env.fault = none) :
    fetchTodo env db =
      (render.JSON 200 (.M [("data", .todos (db.rows.map ToDTO))]),
        { rows := db.rows, log := db.log ++ [Stmt.find] }) := by
  simp [fetchTodo, DB.Find, hf, foldl_append_ToDTO, http.StatusOK]

theorem createTodo_ok (env : Env) (r : Request) (db : DB) (t : todo)
    (hd : r.decode = .ok t) (ht : t.Title ≠ "") (hf : env.fault = none) :
    createTodo env r db =
      (render.JSON 201
          (.M [("message", .str "todo created successfully"), ("todo_id", .str env.newID.String)]),
        { rows := db.rows ++ [{ ID := env.newID, Title := t.Title, Completed := false }],
          log := db.log ++ [Stmt.create (ToRecord t)] }) := by
  simp [createTodo, hd, ht, DB.Create, hf, ToRecord, http.StatusCreated]

theorem hexVal_hexDigit (n : Nat) : hexVal (hexDigit n) = some (n % 16) := by
  have h : n % 16 < 16 := Nat.mod_lt _ (by decide)
  unfold hexDigit
  generalize n % 16 = k at h
  interval_cases k <;> rfl

theorem hexDigit_ne_hyphen (n : Nat) : hexDigit n ≠ '-' := by
  have h : n % 16 < 16 := Nat.mod_lt _ (by decide)
  unfold hexDigit
  generalize n % 16 = k at h
  interval_cases k <;> decide

theorem hexDigit_ne_brace (n : Nat) : hexDigit n ≠ '{' := by
  have h : n % 16 < 16 := Nat.mod_lt _ (by decide)
  unfold hexDigit
  generalize n % 16 = k at h
  interval_cases k <;> decide

theorem UUID.byte_lt (u : UUID) (i : Nat) : u.byte i < 256 :=
  Nat.mod_lt _ (by decide)

theorem byte_of_digits (b : Nat) (h : b < 256) : b / 16 % 16 * 16 + b % 16 = b := by
  omega

theorem UUID.String_data (u : UUID) :
    (UUID.String u).data =
      [hexDigit (u.byte 0 / 16), hexDigit (u.byte 0), hexDigit (u.byte 1 / 16), hexDigit (u.byte 1),
       hexDigit (u.byte 2 / 16), hexDigit (u.byte 2), hexDigit (u.byte 3 / 16), hexDigit (u.byte 3),
       '-',
       hexDigit (u.byte 4 / 16), hexDigit (u.byte 4), hexDigit (u.byte 5 / 16), hexDigit (u.byte 5),
       '-',
       hexDigit (u.byte 6 / 16), hexDigit (u.byte 6), hexDigit (u.byte 7 / 16), hexDigit (u.byte 7),
       '-',
       hexDigit (u.byte 8 / 16), hexDigit (u.byte 8), hexDigit (u.byte 9 / 16), hexDigit (u.byte 9),
       '-',
       hexDigit (u.byte 10 / 16), hexDigit (u.byte 10), hexDigit (u.byte 11 / 16),
       hexDigit (u.byte 11), hexDigit (u.byte 12 / 16), hexDigit (u.byte 12),
       hexDigit (u.byte 13 / 16), hexDigit (u.byte 13), hexDigit (u.byte 14 / 16),
       hexDigit (u.byte 14), hexDigit (u.byte 15 / 16), hexDigit (u.byte 15)] :=
  rfl

theorem UUID.bytes_eq (u : UUID) :
    u.bytes =
      [u.byte 0, u.byte 1, u.byte 2, u.byte 3, u.byte 4, u.byte 5, u.byte 6, u.byte 7,
       u.byte 8, u.byte 9, u.byte 10, u.byte 11, u.byte 12, u.byte 13, u.byte 14, u.byte 15] :=
  rfl

theorem range_sixteen :
    List.range 16 = [0, 1, 2, 3, 4, 5, 6, 7, 8, 9, 10, 11, 12, 13, 14, 15] :=
  rfl

/-- The database reads the canonical text of a uuid back as its sixteen bytes. -/
theorem uuid_in_String (u : UUID) : uuid_in (UUID.String u) = some u.bytes := by
  have hd := UUID.String_data u
  unfold uuid_in
  rw [hd, UUID.bytes_eq, range_sixteen]
  simp [readBytes, hexVal_hexDigit, hexDigit_ne_hyphen, hexDigit_ne_brace,
    byte_of_digits _ (UUID.byte_lt u _)]

/-- Upper-case digits, the form without hyphens and the form in braces are read as the
same sixteen bytes as the canonical text; a text that is too short is not a uuid. -/
theorem uuid_in_spellings :
    uuid_in "00000000-0000-0000-0000-00000000000A" = some (UUID.bytes ⟨10⟩) ∧
      uuid_in "0000000000000000000000000000000a" = some (UUID.bytes ⟨10⟩) ∧
      uuid_in "\x7b00000000-0000-0000-0000-00000000000a\x7d" = some (UUID.bytes ⟨10⟩) ∧
      uuid_in "1" = none := by
  decide

theorem ExecUpdate_succeeds (env : Env) (title : String) (completed : Bool) (id : String)
    (db : DB) (hs : (DB.ExecUpdate env title completed id db).1 = none) :
    env.fault = none ∧ ∃ bs, uuid_in id = some bs := by
  unfold DB.ExecUpdate at hs
  cases hf : env.fault with
  | some e => simp [hf] at hs
  | none =>
    cases hp : uuid_in id with
    | none => simp [hf, hp] at hs
    | some bs => exact ⟨rfl, bs, rfl⟩

theorem ExecDelete_succeeds (env : Env) (id : String) (db : DB)
    (hs : (DB.ExecDelete env id db).1 = none) :
    env.fault = none ∧ ∃ bs, uuid_in id = some bs := by
  unfold DB.ExecDelete at hs
  cases hf : env.fault with
  | some e => simp [hf] at hs
  | none =>
    cases hp : uuid_in id with
    | none => simp [hf, hp] at hs
    | some bs => exact ⟨rfl, bs, rfl⟩

theorem updateTodo_ok (env : Env) (r : Request) (db : DB) (t : todo) (bs : List Nat)
    (hid : strings.TrimSpace r.id ≠ "") (hd : r.decode = .ok t) (ht : t.Title ≠ "")
    (hf : env.fault = none) (hp : uuid_in (strings.TrimSpace r.id) = some bs) :
    updateTodo env r db =
      (render.JSON 200 (.M [("message", .str "updated the todo")]),
        { rows := db.rows.map (fun m =>
            if m.ID.bytes = bs then
              { ID := m.ID, Title := t.Title, Completed := t.Completed }
            else m),
          log := db.log ++ [Stmt.update t.Title t.Completed (strings.TrimSpace r.id)] }) := by
  simp [updateTodo, hid, hd, ht, DB.ExecUpdate, hf, hp, http.StatusOK]

theorem deleteTodo_ok (env : Env) (r : Request) (db : DB) (bs : List Nat)
    (hid : strings.TrimSpace r.id ≠ "") (hf : env.fault = none)
    (hp : uuid_in (strings.TrimSpace r.id) = some bs) :
    deleteTodo env r db =
      (render.JSON 200 (.M [("message", .str "Todo delete successfully ")]),
        { rows := db.rows.filter (fun m => decide (m.ID.bytes ≠ bs)),
          log := db.log ++ [Stmt.delete (strings.TrimSpace r.id)] }) := by
  simp [deleteTodo, hid, DB.ExecDelete, hf, hp, http.StatusOK]

theorem updateTodo_no_uuid (env : Env) (r : Request) (db : DB) (t : todo)
    (hid : strings.TrimSpace r.id ≠ "") (hd : r.decode = .ok t) (ht : t.Title ≠ "")
    (hf : env.fault = none) (hp : uuid_in (strings.TrimSpace r.id) = none) :
    (updateTodo env r db).1 =
        render.JSON 102
          (.M [("message", .str "Failed to update todo"), ("error", .err pgInvalidUUID)]) ∧
      (updateTodo env r db).2.rows = db.rows := by
  simp [updateTodo, hid, hd, ht, DB.ExecUpdate, hf, hp, http.StatusProcessing]

theorem deleteTodo_no_uuid (env : Env) (r : Request) (db : DB)
    (hid : strings.TrimSpace r.id ≠ "") (hf : env.fault = none)
    (hp : uuid_in (strings.TrimSpace r.id) = none) :
    (deleteTodo env r db).1 =
        render.JSON 102
          (.M [("message", .str "Failed to delete todo"), ("error", .err pgInvalidUUID)]) ∧
      (deleteTodo env r db).2.rows = db.rows := by
  simp [deleteTodo, hid, DB.ExecDelete, hf, hp, http.StatusProcessing]

theorem updateTodo_blank_id (env : Env) (r : Request) (db : DB)
    (hid : strings.TrimSpace r.id = "") :
    updateTodo env r db =
      (render.JSON 400 (.M [("message", .str "id is not be empty")]), db) := by
  simp [updateTodo, hid, http.StatusBadRequest]

theorem deleteTodo_blank_id (env : Env) (r : Request) (db : DB)
    (hid : strings.TrimSpace r.id = "") :
    deleteTodo env r db = (render.JSON 400 (.M [("message", .str "id is invalid")]), db) := by
  simp [deleteTodo, hid, http.StatusBadRequest]

theorem createAll_ok (reqs : List (Env × Request)) (db : DB)
    (hreq : ∀ p ∈ reqs, p.1.fault = none ∧ ∃ t, p.2.decode = .ok t ∧ t.Title ≠ "") :
    (createAll reqs db).2.rows.map ToDTO =
        db.rows.map ToDTO ++ reqs.map (fun p =>
          match p.2.decode with
          | .ok t => { ID := p.1.newID.String, Title := t.Title, Completed := false }
          | .error _ => { ID := "", Title := "", Completed := false }) ∧
      (createAll reqs db).1 = reqs.map (fun p =>
        render.JSON 201
          (.M [("message", .str "todo created successfully"),
               ("todo_id", .str p.1.newID.String)])) := by
  induction reqs generalizing db with
  | nil => simp [createAll]
  | cons p rest ih =>
    obtain ⟨env, r⟩ := p
    have hp := hreq (env, r) (List.mem_cons_self _ _)
    obtain ⟨hf, t, hd, ht⟩ := hp
    have hd : r.decode = .ok t := hd
    have hf : env.fault = none := hf
    have hrest : ∀ q ∈ rest, q.1.fault = none ∧ ∃ t, q.2.decode = .ok t ∧ t.Title ≠ "" :=
      fun q hq => hreq q (List.mem_cons_of_mem _ hq)
    have hstep := createTodo_ok env r db t hd ht hf
    have h := ih (createTodo env r db).2 hrest
    simp only [createAll, List.map_cons]
    refine ⟨?_, ?_⟩
    · rw [h.1, hstep]
      simp [ToDTO, hd]
    · rw [h.2, hstep]

theorem fetchTodo_fault (env : Env) (db : DB) (e : GoError) (hf : env.fault = some e) :
    (fetchTodo env db).1 =
      render.JSON 102 (.M [("message", .str "Failed to fetch todo"), ("error", .err e)]) := by
  simp [fetchTodo, DB.Find, hf, http.StatusProcessing]

theorem createTodo_fault (env : Env) (r : Request) (db : DB) (t : todo) (e : GoError)
    (hd : r.decode = .ok t) (ht : t.Title ≠ "") (hf : env.fault = some e) :
    (createTodo env r db).1 =
      render.JSON 102 (.M [("message", .str "Failed to create todo"), ("data", .err e)]) := by
  simp [createTodo, hd, ht, DB.Create, hf, http.StatusProcessing]

theorem updateTodo_fault (env : Env) (r : Request) (db : DB) (t : todo) (e : GoError)
    (hid : strings.TrimSpace r.id ≠ "") (hd : r.decode = .ok t) (ht : t.Title ≠ "")
    (hf : env.fault = some e) :
    (updateTodo env r db).1 =
      render.JSON 102 (.M [("message", .str "Failed to update todo"), ("error", .err e)]) := by
  simp [updateTodo, hid, hd, ht, DB.ExecUpdate, hf, http.StatusProcessing]

theorem deleteTodo_fault (env : Env) (r : Request) (db : DB) (e : GoError)
    (hid : strings.TrimSpace r.id ≠ "") (hf : env.fault = some e) :
    (deleteTodo env r db).1 =
      render.JSON 102 (.M [("message", .str "Failed to delete todo"), ("error", .err e)]) := by
  simp [deleteTodo, hid, DB.ExecDelete, hf, http.StatusProcessing]

theorem updateTodo_title_empty (env : Env) (r : Request) (db : DB) (t : todo)
    (hid : strings.TrimSpace r.id ≠ "") (hd : r.decode = .ok t) (ht : t.Title = "") :
    updateTodo env r db = (render.JSON 102 (.M [("message", .str "Title is empty ")]), db) := by
  simp [updateTodo, hid, hd, ht, http.StatusProcessing]

theorem createTodo_undecodable (env : Env) (r : Request) (db : DB) (err : GoError)
    (hd : r.decode = .error err) :
    createTodo env r db = (render.JSON 102 (.err err), db) := by
  simp [createTodo, hd, http.StatusProcessing]

theorem updateTodo_undecodable (env : Env) (r : Request) (db : DB) (err : GoError)
    (hid : strings.TrimSpace r.id ≠ "") (hd : r.decode = .error err) :
    updateTodo env r db = (render.JSON 102 (.err err), db) := by
  simp [updateTodo, hid, hd, http.StatusProcessing]

/-- The identifier of a stored row written with an upper-case digit: the UPDATE changes
that row and the DELETE removes it. -/
theorem upper_case_identifier_matches :
    (updateTodo ⟨none, ⟨0⟩⟩ ⟨"00000000-0000-0000-0000-00000000000A", .ok ⟨"", "new", true⟩⟩
        ⟨[⟨⟨10⟩, "a", false⟩, ⟨⟨2⟩, "b", false⟩], []⟩).2.rows =
        [⟨⟨10⟩, "new", true⟩, ⟨⟨2⟩, "b", false⟩] ∧
      (deleteTodo ⟨none, ⟨0⟩⟩ ⟨"00000000-0000-0000-0000-00000000000A", .error ioEOF⟩
        ⟨[⟨⟨10⟩, "a", false⟩, ⟨⟨2⟩, "b", false⟩], []⟩).2.rows =
        [⟨⟨2⟩, "b", false⟩] := by
  decide

/-! ## The claims -/

/-- C1: a create request whose decoded body has an empty title is answered with status
400 and the database is left as it was: no row is written and no statement is issued. -/
theorem createTodo_empty_title (env : Env) (r : Request) (db : DB) (t : todo)
    (hd : r.decode = .ok t) (ht : t.Title = "") :
    (createTodo env r db).1.status = 400 ∧ (createTodo env r db).2 = db := by
  simp [createTodo, hd, ht, render.JSON, http.StatusBadRequest]

theorem createTodo_empty_title_witness :
    (⟨"", .ok ⟨"", "", true⟩⟩ : Request).decode = .ok ⟨"", "", true⟩ ∧
      (⟨"", "", true⟩ : todo).Title = "" ∧
      (createTodo ⟨none, ⟨7⟩⟩ ⟨"", .ok ⟨"", "", true⟩⟩ ⟨[⟨⟨1⟩, "a", false⟩], []⟩).1.status = 400 ∧
      (createTodo ⟨none, ⟨7⟩⟩ ⟨"", .ok ⟨"", "", true⟩⟩ ⟨[⟨⟨1⟩, "a", false⟩], []⟩).2 =
        ⟨[⟨⟨1⟩, "a", false⟩], []⟩ :=
  ⟨rfl, rfl, createTodo_empty_title ⟨none, ⟨7⟩⟩ ⟨"", .ok ⟨"", "", true⟩⟩
    ⟨[⟨⟨1⟩, "a", false⟩], []⟩ ⟨"", "", true⟩ rfl rfl⟩

/-- C2: a create request whose body decodes to a todo with a non-empty title (whatever
its completed flag) and whose insert succeeds is answered with status 201 and the
generated identifier; the table gains exactly one row, with the request's title and
completed=false; a following fetchTodo whose read succeeds lists the rows there were
and, after them, one todo with that identifier, that title and completed=false. -/
theorem createTodo_then_fetch (env envF : Env) (r : Request) (db : DB) (t : todo)
    (hd : r.decode = .ok t) (ht : t.Title ≠ "") (hf : env.fault = none)
    (hF : envF.fault = none) :
    (createTodo env r db).1 =
        render.JSON 201
          (.M [("message", .str "todo created successfully"),
               ("todo_id", .str env.newID.String)]) ∧
      (createTodo env r db).2.rows =
        db.rows ++ [{ ID := env.newID, Title := t.Title, Completed := false }] ∧
      (fetchTodo envF (createTodo env r db).2).1 =
        render.JSON 200
          (.M [("data", .todos (db.rows.map ToDTO ++
            [{ ID := env.newID.String, Title := t.Title, Completed := false }]))]) := by
  rw [createTodo_ok env r db t hd ht hf, fetchTodo_ok _ _ hF]
  simp [ToDTO]

theorem createTodo_then_fetch_witness :
    (⟨"", .ok ⟨"x", "buy milk", true⟩⟩ : Request).decode = .ok ⟨"x", "buy milk", true⟩ ∧
      (⟨"x", "buy milk", true⟩ : todo).Title ≠ "" ∧
      (createTodo ⟨none, ⟨7⟩⟩ ⟨"", .ok ⟨"x", "buy milk", true⟩⟩ DB.empty).1 =
        render.JSON 201
          (.M [("message", .str "todo created successfully"),
               ("todo_id", .str (UUID.String ⟨7⟩))]) ∧
      (createTodo ⟨none, ⟨7⟩⟩ ⟨"", .ok ⟨"x", "buy milk", true⟩⟩ DB.empty).2.rows =
        DB.empty.rows ++ [{ ID := ⟨7⟩, Title := "buy milk", Completed := false }] ∧
      (fetchTodo ⟨none, ⟨0⟩⟩
          (createTodo ⟨none, ⟨7⟩⟩ ⟨"", .ok ⟨"x", "buy milk", true⟩⟩ DB.empty).2).1 =
        render.JSON 200
          (.M [("data", .todos (DB.empty.rows.map ToDTO ++
            [{ ID := UUID.String ⟨7⟩, Title := "buy milk", Completed := false }]))]) :=
  ⟨rfl, by decide, createTodo_then_fetch ⟨none, ⟨7⟩⟩ ⟨none, ⟨0⟩⟩
    ⟨"", .ok ⟨"x", "buy milk", true⟩⟩ DB.empty ⟨"x", "buy milk", true⟩ rfl (by decide) rfl rfl⟩

/-- C3: updateTodo and deleteTodo called with an empty identifier path parameter answer
with status 400 and leave the database as it was, whatever the request body and
whatever the database would do: no statement is issued and no row changes. -/
theorem empty_id_rejected (env : Env) (r : Request) (db : DB) (hid : r.id = "") :
    (updateTodo env r db).1.status = 400 ∧ (updateTodo env r db).2 = db ∧
      (deleteTodo env r db).1.status = 400 ∧ (deleteTodo env r db).2 = db := by
  have h : strings.TrimSpace r.id = "" := by rw [hid]; exact TrimSpace_empty
  rw [updateTodo_blank_id env r db h, deleteTodo_blank_id env r db h]
  simp [render.JSON]

theorem empty_id_rejected_witness :
    (⟨"", .ok ⟨"", "a", true⟩⟩ : Request).id = "" ∧
      (updateTodo ⟨none, ⟨7⟩⟩ ⟨"", .ok ⟨"", "a", true⟩⟩ ⟨[⟨⟨1⟩, "b", false⟩], []⟩).1.status = 400 ∧
      (updateTodo ⟨none, ⟨7⟩⟩ ⟨"", .ok ⟨"", "a", true⟩⟩ ⟨[⟨⟨1⟩, "b", false⟩], []⟩).2 =
        ⟨[⟨⟨1⟩, "b", false⟩], []⟩ ∧
      (deleteTodo ⟨none, ⟨7⟩⟩ ⟨"", .ok ⟨"", "a", true⟩⟩ ⟨[⟨⟨1⟩, "b", false⟩], []⟩).1.status = 400 ∧
      (deleteTodo ⟨none, ⟨7⟩⟩ ⟨"", .ok ⟨"", "a", true⟩⟩ ⟨[⟨⟨1⟩, "b", false⟩], []⟩).2 =
        ⟨[⟨⟨1⟩, "b", false⟩], []⟩ :=
  ⟨rfl, empty_id_rejected ⟨none, ⟨7⟩⟩ ⟨"", .ok ⟨"", "a", true⟩⟩ ⟨[⟨⟨1⟩, "b", false⟩], []⟩ rfl⟩

/-- C4 (the code departs from it): with a failing database, each of fetchTodo,
createTodo, updateTodo and deleteTodo, on a request that passes validation, answers
with status 102 (http.StatusProcessing), which is not in the range 500..599. -/
theorem storage_failure_status_102 :
    (fetchTodo ⟨some ⟨.obj []⟩, ⟨0⟩⟩ DB.empty).1.status = 102 ∧
      (createTodo ⟨some ⟨.obj []⟩, ⟨0⟩⟩ ⟨"", .ok ⟨"", "buy milk", false⟩⟩ DB.empty).1.status = 102 ∧
      (updateTodo ⟨some ⟨.obj []⟩, ⟨0⟩⟩ ⟨"1", .ok ⟨"", "buy milk", false⟩⟩ DB.empty).1.status = 102 ∧
      (deleteTodo ⟨some ⟨.obj []⟩, ⟨0⟩⟩ ⟨"1", .ok ⟨"", "", false⟩⟩ DB.empty).1.status = 102 ∧
      ¬ (500 ≤ (fetchTodo ⟨some ⟨.obj []⟩, ⟨0⟩⟩ DB.empty).1.status ∧
          (fetchTodo ⟨some ⟨.obj []⟩, ⟨0⟩⟩ DB.empty).1.status ≤ 599) := by
  decide

/-- C5 (the code departs from it): an update request with the identifier 1 and an empty
title is answered with status 102 (http.StatusProcessing), not 400; the database is
left as it was. -/
theorem updateTodo_empty_title_status_102 :
    (updateTodo ⟨none, ⟨0⟩⟩ ⟨"1", .ok ⟨"", "", true⟩⟩ ⟨[⟨⟨1⟩, "a", false⟩], []⟩).1.status = 102 ∧
      (updateTodo ⟨none, ⟨0⟩⟩ ⟨"1", .ok ⟨"", "", true⟩⟩ ⟨[⟨⟨1⟩, "a", false⟩], []⟩).2 =
        ⟨[⟨⟨1⟩, "a", false⟩], []⟩ := by
  decide

/-- C6 (the code departs from it): when the request body cannot be decoded (here an
empty body, for which Decode returns io.EOF), createTodo and updateTodo hand the error
value itself to render.JSON, and the JSON written has no member named message. -/
theorem undecodable_body_no_message :
    (createTodo ⟨none, ⟨0⟩⟩ ⟨"", .error ioEOF⟩ DB.empty).1.body.encode.hasMember "message" = false ∧
      (updateTodo ⟨none, ⟨0⟩⟩ ⟨"1", .error ioEOF⟩ DB.empty).1.body.encode.hasMember "message" = false := by
  decide

/-- C7: after any number N of successful create requests with non-empty titles on the
empty database, a following fetchTodo whose read succeeds answers 200 with a data list
of exactly N todos, the i-th of which carries the title sent in the i-th create request,
completed=false and the identifier (text form) that the i-th create returned in its 201
answer; and on every database fetchTodo lists exactly one todo per stored row, with the
row's identifier as text, its title and its completed flag. -/
theorem creates_then_fetch (reqs : List (Env × Request)) (envF : Env) (db : DB)
    (hreq : ∀ p ∈ reqs, p.1.fault = none ∧ ∃ t, p.2.decode = .ok t ∧ t.Title ≠ "")
    (hF : envF.fault = none) :
    (∃ data : List todo,
        (fetchTodo envF (createAll reqs DB.empty).2).1 =
            render.JSON 200 (.M [("data", .todos data)]) ∧
          data.length = reqs.length ∧
          ∀ (i : Nat) (env : Env) (r : Request) (t : todo),
            reqs[i]? = some (env, r) → r.decode = .ok t →
              data[i]? = some { ID := env.newID.String, Title := t.Title, Completed := false } ∧
                (createAll reqs DB.empty).1[i]? =
                  some (render.JSON 201
                    (.M [("message", .str "todo created successfully"),
                         ("todo_id", .str env.newID.String)]))) ∧
      (fetchTodo envF db).1 =
        render.JSON 200
          (.M [("data", .todos (db.rows.map (fun m =>
            { ID := m.ID.String, Title := m.Title, Completed := m.Completed })))]) := by
  refine ⟨?_, ?_⟩
  · obtain ⟨hrows, hresp⟩ := createAll_ok reqs DB.empty hreq
    refine ⟨(createAll reqs DB.empty).2.rows.map ToDTO, ?_, ?_, ?_⟩
    · rw [fetchTodo_ok _ _ hF]
    · rw [hrows]; simp [DB.empty]
    · intro i env r t hi hd
      rw [hrows, hresp]
      simp [DB.empty, List.getElem?_map, hi, hd]
  · rw [fetchTodo_ok _ _ hF]
    rfl

theorem creates_then_fetch_witness :
    (∀ p ∈ [((⟨none, ⟨7⟩⟩ : Env), (⟨"", .ok ⟨"", "a", true⟩⟩ : Request)),
            ((⟨none, ⟨8⟩⟩ : Env), (⟨"", .ok ⟨"", "b", false⟩⟩ : Request))],
        p.1.fault = none ∧ ∃ t, p.2.decode = .ok t ∧ t.Title ≠ "") ∧
      (⟨none, ⟨0⟩⟩ : Env).fault = none ∧
      ((∃ data : List todo,
        (fetchTodo ⟨none, ⟨0⟩⟩
            (createAll [(⟨none, ⟨7⟩⟩, ⟨"", .ok ⟨"", "a", true⟩⟩),
                        (⟨none, ⟨8⟩⟩, ⟨"", .ok ⟨"", "b", false⟩⟩)] DB.empty).2).1 =
            render.JSON 200 (.M [("data", .todos data)]) ∧
          data.length =
            [((⟨none, ⟨7⟩⟩ : Env), (⟨"", .ok ⟨"", "a", true⟩⟩ : Request)),
             ((⟨none, ⟨8⟩⟩ : Env), (⟨"", .ok ⟨"", "b", false⟩⟩ : Request))].length ∧
          ∀ (i : Nat) (env : Env) (r : Request) (t : todo),
            [((⟨none, ⟨7⟩⟩ : Env), (⟨"", .ok ⟨"", "a", true⟩⟩ : Request)),
             ((⟨none, ⟨8⟩⟩ : Env), (⟨"", .ok ⟨"", "b", false⟩⟩ : Request))][i]? = some (env, r) →
              r.decode = .ok t →
              data[i]? = some { ID := env.newID.String, Title := t.Title, Completed := false } ∧
                (createAll [(⟨none, ⟨7⟩⟩, ⟨"", .ok ⟨"", "a", true⟩⟩),
                            (⟨none, ⟨8⟩⟩, ⟨"", .ok ⟨"", "b", false⟩⟩)] DB.empty).1[i]? =
                  some (render.JSON 201
                    (.M [("message", .str "todo created successfully"),
                         ("todo_id", .str env.newID.String)]))) ∧
      (fetchTodo ⟨none, ⟨0⟩⟩ ⟨[⟨⟨1⟩, "c", true⟩], []⟩).1 =
        render.JSON 200
          (.M [("data", .todos ((⟨[⟨⟨1⟩, "c", true⟩], []⟩ : DB).rows.map (fun m =>
            { ID := m.ID.String, Title := m.Title, Completed := m.Completed })))])) :=
  ⟨by
      intro p hp
      simp only [List.mem_cons, List.mem_singleton, List.not_mem_nil, or_false] at hp
      rcases hp with rfl | rfl
      · exact ⟨rfl, ⟨"", "a", true⟩, rfl, by decide⟩
      · exact ⟨rfl, ⟨"", "b", false⟩, rfl, by decide⟩,
    rfl,
    creates_then_fetch _ ⟨none, ⟨0⟩⟩ ⟨[⟨⟨1⟩, "c", true⟩], []⟩
      (by
        intro p hp
        simp only [List.mem_cons, List.mem_singleton, List.not_mem_nil, or_false] at hp
        rcases hp with rfl | rfl
        · exact ⟨rfl, ⟨"", "a", true⟩, rfl, by decide⟩
        · exact ⟨rfl, ⟨"", "b", false⟩, rfl, by decide⟩)
      rfl⟩

/-- C8: an update request with a non-empty identifier (the path parameter after
TrimSpace) and a non-empty title whose UPDATE succeeds is answered with status 200; the
number of rows is unchanged; a following fetchTodo whose read succeeds lists, row by
row, the request's title and completed flag for the rows with that identifier (the rows
whose uuid is the one the identifier spells, among them every row whose identifier text
is the identifier) and the old title and completed flag for every other row, each under
its old identifier; when no row has that identifier the rows are left as they were. -/
theorem update_then_fetch (env envF : Env) (r : Request) (db : DB) (t : todo)
    (hid : strings.TrimSpace r.id ≠ "") (hd : r.decode = .ok t) (ht : t.Title ≠ "")
    (hs : (DB.ExecUpdate env t.Title t.Completed (strings.TrimSpace r.id) db).1 = none)
    (hF : envF.fault = none) :
    (updateTodo env r db).1 = render.JSON 200 (.M [("message", .str "updated the todo")]) ∧
      (updateTodo env r db).2.rows.length = db.rows.length ∧
      (fetchTodo envF (updateTodo env r db).2).1 =
        render.JSON 200
          (.M [("data", .todos (db.rows.map (fun m =>
            if uuid_in (strings.TrimSpace r.id) = some m.ID.bytes then
              { ID := m.ID.String, Title := t.Title, Completed := t.Completed }
            else
              { ID := m.ID.String, Title := m.Title, Completed := m.Completed })))]) ∧
      (∀ m ∈ db.rows, m.ID.String = strings.TrimSpace r.id →
        uuid_in (strings.TrimSpace r.id) = some m.ID.bytes) ∧
      ((∀ m ∈ db.rows, uuid_in (strings.TrimSpace r.id) ≠ some m.ID.bytes) →
        (updateTodo env r db).2.rows = db.rows) := by
  obtain ⟨hf, bs, hp⟩ := ExecUpdate_succeeds _ _ _ _ _ hs
  rw [updateTodo_ok env r db t bs hid hd ht hf hp, fetchTodo_ok _ _ hF]
  refine ⟨rfl, by simp, ?_, ?_, ?_⟩
  · simp only [List.map_map]
    congr 5
    apply List.map_congr_left
    intro m _
    by_cases h : m.ID.bytes = bs
    · simp [h, hp, ToDTO]
    · have h2 : ¬ bs = m.ID.bytes := fun e => h e.symm
      simp [h, h2, hp, ToDTO]
  · intro m _ hm
    rw [← hm]
    exact uuid_in_String m.ID
  · intro hno
    simp only
    conv_rhs => rw [← List.map_id db.rows]
    apply List.map_congr_left
    intro m hm
    have h : ¬ m.ID.bytes = bs := by
      intro e
      exact hno m hm (by rw [hp, e])
    simp [h]

theorem update_then_fetch_witness :
    strings.TrimSpace (⟨" 00000000-0000-0000-0000-00000000000A ", .ok ⟨"", "new", true⟩⟩ : Request).id ≠ "" ∧
      (⟨" 00000000-0000-0000-0000-00000000000A ", .ok ⟨"", "new", true⟩⟩ : Request).decode =
        .ok ⟨"", "new", true⟩ ∧
      (⟨"", "new", true⟩ : todo).Title ≠ "" ∧
      (DB.ExecUpdate ⟨none, ⟨0⟩⟩ (⟨"", "new", true⟩ : todo).Title (⟨"", "new", true⟩ : todo).Completed
          (strings.TrimSpace
            (⟨" 00000000-0000-0000-0000-00000000000A ", .ok ⟨"", "new", true⟩⟩ : Request).id)
          ⟨[⟨⟨10⟩, "a", false⟩, ⟨⟨2⟩, "b", false⟩], []⟩).1 = none ∧
      ((updateTodo ⟨none, ⟨0⟩⟩ ⟨" 00000000-0000-0000-0000-00000000000A ", .ok ⟨"", "new", true⟩⟩
          ⟨[⟨⟨10⟩, "a", false⟩, ⟨⟨2⟩, "b", false⟩], []⟩).1 =
        render.JSON 200 (.M [("message", .str "updated the todo")]) ∧
      (updateTodo ⟨none, ⟨0⟩⟩ ⟨" 00000000-0000-0000-0000-00000000000A ", .ok ⟨"", "new", true⟩⟩
          ⟨[⟨⟨10⟩, "a", false⟩, ⟨⟨2⟩, "b", false⟩], []⟩).2.rows.length =
        (⟨[⟨⟨10⟩, "a", false⟩, ⟨⟨2⟩, "b", false⟩], []⟩ : DB).rows.length ∧
      (fetchTodo ⟨none, ⟨0⟩⟩
          (updateTodo ⟨none, ⟨0⟩⟩ ⟨" 00000000-0000-0000-0000-00000000000A ", .ok ⟨"", "new", true⟩⟩
            ⟨[⟨⟨10⟩, "a", false⟩, ⟨⟨2⟩, "b", false⟩], []⟩).2).1 =
        render.JSON 200
          (.M [("data", .todos ((⟨[⟨⟨10⟩, "a", false⟩, ⟨⟨2⟩, "b", false⟩], []⟩ : DB).rows.map (fun m =>
            if uuid_in (strings.TrimSpace
                (⟨" 00000000-0000-0000-0000-00000000000A ", .ok ⟨"", "new", true⟩⟩ : Request).id) =
                some m.ID.bytes then
              { ID := m.ID.String, Title := (⟨"", "new", true⟩ : todo).Title,
                Completed := (⟨"", "new", true⟩ : todo).Completed }
            else
              { ID := m.ID.String, Title := m.Title, Completed := m.Completed })))]) ∧
      (∀ m ∈ (⟨[⟨⟨10⟩, "a", false⟩, ⟨⟨2⟩, "b", false⟩], []⟩ : DB).rows,
          m.ID.String = strings.TrimSpace
            (⟨" 00000000-0000-0000-0000-00000000000A ", .ok ⟨"", "new", true⟩⟩ : Request).id →
          uuid_in (strings.TrimSpace
            (⟨" 00000000-0000-0000-0000-00000000000A ", .ok ⟨"", "new", true⟩⟩ : Request).id) =
            some m.ID.bytes) ∧
      ((∀ m ∈ (⟨[⟨⟨10⟩, "a", false⟩, ⟨⟨2⟩, "b", false⟩], []⟩ : DB).rows,
          uuid_in (strings.TrimSpace
            (⟨" 00000000-0000-0000-0000-00000000000A ", .ok ⟨"", "new", true⟩⟩ : Request).id) ≠
            some m.ID.bytes) →
        (updateTodo ⟨none, ⟨0⟩⟩ ⟨" 00000000-0000-0000-0000-00000000000A ", .ok ⟨"", "new", true⟩⟩
          ⟨[⟨⟨10⟩, "a", false⟩, ⟨⟨2⟩, "b", false⟩], []⟩).2.rows =
          (⟨[⟨⟨10⟩, "a", false⟩, ⟨⟨2⟩, "b", false⟩], []⟩ : DB).rows)) :=
  ⟨by decide, rfl, by decide, rfl,
    update_then_fetch ⟨none, ⟨0⟩⟩ ⟨none, ⟨0⟩⟩
      ⟨" 00000000-0000-0000-0000-00000000000A ", .ok ⟨"", "new", true⟩⟩
      ⟨[⟨⟨10⟩, "a", false⟩, ⟨⟨2⟩, "b", false⟩], []⟩ ⟨"", "new", true⟩
      (by decide) rfl (by decide) rfl rfl⟩

/-- C9: a delete request with a non-empty identifier (the path parameter after
TrimSpace) whose DELETE succeeds is answered with status 200, whether or not a row with
that identifier existed; a following fetchTodo whose read succeeds lists the rows
without those with that identifier (the rows whose uuid is the one the identifier
spells): no listed todo has the identifier as its id, or an id that spells the same
uuid, and the todo of every row with another identifier is still listed, unchanged. -/
theorem delete_then_fetch (env envF : Env) (r : Request) (db : DB)
    (hid : strings.TrimSpace r.id ≠ "")
    (hs : (DB.ExecDelete env (strings.TrimSpace r.id) db).1 = none)
    (hF : envF.fault = none) :
    (deleteTodo env r db).1 =
        render.JSON 200 (.M [("message", .str "Todo delete successfully ")]) ∧
      ∃ data : List todo,
        (fetchTodo envF (deleteTodo env r db).2).1 =
            render.JSON 200 (.M [("data", .todos data)]) ∧
          data = (db.rows.filter (fun m =>
              decide (uuid_in (strings.TrimSpace r.id) ≠ some m.ID.bytes))).map (fun m =>
            { ID := m.ID.String, Title := m.Title, Completed := m.Completed }) ∧
          (∀ d ∈ data, d.ID ≠ strings.TrimSpace r.id ∧
            uuid_in d.ID ≠ uuid_in (strings.TrimSpace r.id)) ∧
          (∀ m ∈ db.rows, uuid_in (strings.TrimSpace r.id) ≠ some m.ID.bytes →
            ({ ID := m.ID.String, Title := m.Title, Completed := m.Completed } : todo) ∈ data) := by
  obtain ⟨hf, bs, hp⟩ := ExecDelete_succeeds _ _ _ hs
  rw [deleteTodo_ok env r db bs hid hf hp, fetchTodo_ok _ _ hF]
  have hfilter : db.rows.filter (fun m => decide (m.ID.bytes ≠ bs)) =
      db.rows.filter (fun m => decide (uuid_in (strings.TrimSpace r.id) ≠ some m.ID.bytes)) := by
    apply List.filter_congr
    intro m _
    by_cases h : m.ID.bytes = bs
    · simp [h, hp]
    · have h2 : ¬ bs = m.ID.bytes := fun e => h e.symm
      simp [h, h2, hp]
  refine ⟨rfl, _, rfl, ?_, ?_, ?_⟩
  · simp only [hfilter]
    rfl
  · intro d hd
    simp only [List.mem_map, List.mem_filter] at hd
    obtain ⟨m, ⟨_, hm⟩, rfl⟩ := hd
    have hne : m.ID.bytes ≠ bs := by simpa using hm
    have hread : uuid_in (ToDTO m).ID = some m.ID.bytes := uuid_in_String m.ID
    refine ⟨?_, ?_⟩
    · intro e
      rw [e, hp] at hread
      exact hne (Option.some.inj hread).symm
    · rw [hread, hp]
      intro e
      exact hne (Option.some.inj e)
  · intro m hm hne
    simp only [List.mem_map, List.mem_filter]
    refine ⟨m, ⟨hm, ?_⟩, rfl⟩
    have h : m.ID.bytes ≠ bs := by
      intro e
      exact hne (by rw [hp, e])
    simpa using h

theorem delete_then_fetch_witness :
    strings.TrimSpace (⟨"00000000-0000-0000-0000-00000000000A", .error ioEOF⟩ : Request).id ≠ "" ∧
      (DB.ExecDelete ⟨none, ⟨0⟩⟩
          (strings.TrimSpace (⟨"00000000-0000-0000-0000-00000000000A", .error ioEOF⟩ : Request).id)
          ⟨[⟨⟨10⟩, "a", false⟩, ⟨⟨2⟩, "b", true⟩], []⟩).1 = none ∧
      ((deleteTodo ⟨none, ⟨0⟩⟩ ⟨"00000000-0000-0000-0000-00000000000A", .error ioEOF⟩
          ⟨[⟨⟨10⟩, "a", false⟩, ⟨⟨2⟩, "b", true⟩], []⟩).1 =
        render.JSON 200 (.M [("message", .str "Todo delete successfully ")]) ∧
      ∃ data : List todo,
        (fetchTodo ⟨none, ⟨0⟩⟩
            (deleteTodo ⟨none, ⟨0⟩⟩ ⟨"00000000-0000-0000-0000-00000000000A", .error ioEOF⟩
              ⟨[⟨⟨10⟩, "a", false⟩, ⟨⟨2⟩, "b", true⟩], []⟩).2).1 =
            render.JSON 200 (.M [("data", .todos data)]) ∧
          data = ((⟨[⟨⟨10⟩, "a", false⟩, ⟨⟨2⟩, "b", true⟩], []⟩ : DB).rows.filter (fun m =>
              decide (uuid_in (strings.TrimSpace
                (⟨"00000000-0000-0000-0000-00000000000A", .error ioEOF⟩ : Request).id) ≠
                some m.ID.bytes))).map (fun m =>
            { ID := m.ID.String, Title := m.Title, Completed := m.Completed }) ∧
          (∀ d ∈ data, d.ID ≠ strings.TrimSpace
              (⟨"00000000-0000-0000-0000-00000000000A", .error ioEOF⟩ : Request).id ∧
            uuid_in d.ID ≠ uuid_in (strings.TrimSpace
              (⟨"00000000-0000-0000-0000-00000000000A", .error ioEOF⟩ : Request).id)) ∧
          (∀ m ∈ (⟨[⟨⟨10⟩, "a", false⟩, ⟨⟨2⟩, "b", true⟩], []⟩ : DB).rows,
            uuid_in (strings.TrimSpace
              (⟨"00000000-0000-0000-0000-00000000000A", .error ioEOF⟩ : Request).id) ≠
              some m.ID.bytes →
            ({ ID := m.ID.String, Title := m.Title, Completed := m.Completed } : todo) ∈ data)) :=
  ⟨by decide, rfl,
    delete_then_fetch ⟨none, ⟨0⟩⟩ ⟨none, ⟨0⟩⟩
      ⟨"00000000-0000-0000-0000-00000000000A", .error ioEOF⟩
      ⟨[⟨⟨10⟩, "a", false⟩, ⟨⟨2⟩, "b", true⟩], []⟩ (by decide) rfl rfl⟩

/-- C10, the claim as stated fails: for the wire todo with title buy milk and
completed=true, the completed flag after ToRecord and ToDTO differs from the one sent. -/
theorem roundtrip_completed_lost :
    (ToDTO (ToRecord ⟨"", "buy milk", true⟩)).Completed ≠
      (⟨"", "buy milk", true⟩ : todo).Completed := by
  decide

/-- C10, amended: for every wire todo, the record createTodo builds from it (ToRecord),
turned back into a wire todo as fetchTodo does (ToDTO), has the same title and has
completed=false, whatever the completed flag sent. -/
theorem roundtrip_title_kept (dto : todo) :
    (ToDTO (ToRecord dto)).Title = dto.Title ∧ (ToDTO (ToRecord dto)).Completed = false :=
  ⟨rfl, rfl⟩

end GoTodo
